import Mathlib

/-!
Verification development for the SObjectizer-5 cooperation lifecycle,
active_obj dispatcher surface and the two demo scenarios.

Shallow embedding conventions:
* C++ `int` constants are embedded as `Int`.
* `std::shared_ptr< T >` that is only tested for null is embedded as `Option`.
* Functions whose bodies live in translation units absent from the
  repository snapshot are modelled from the specification; each such
  definition carries a doc comment starting with `Modelled from the spec:`.
-/

namespace SO5

/-! ## Deregistration reason codes (src/dev/so_5/rt/h/agent_coop.hpp, namespace dereg_reason) -/

namespace dereg_reason

/-- Normal deregistration. -/
def normal : Int := 0

/-- Deregistration because SObjectizer Environment shutdown. -/
def shutdown : Int := 1

/-- Deregistration because parent cooperation deregistration. -/
def parent_deregistration : Int := 2

/-- Deregistration because of unhandled exception. -/
def unhandled_exception : Int := 3

/-- Deregistration because of unknown error. -/
def unknown_error : Int := 4

/-- Reason is not properly defined. -/
def undefined : Int := -1

/-- A starting point for user-defined reasons (0x1000). -/
def user_defined_reason : Int := 0x1000

/-- The list of the six built-in reason codes. -/
def builtin_reasons : List Int :=
  [normal, shutdown, parent_deregistration, unhandled_exception,
   unknown_error, undefined]

end dereg_reason

/-! ## active_obj dispatcher handle (src/dev/so_5/disp/active_obj/pub.hpp) -/

/-- The `dispatcher_handle_t` holds a `disp_binder_shptr_t m_binder`; the shared
pointer is embedded as `Option β` with `none` for the null pointer. -/
structure dispatcher_handle_t (β : Type) where
  m_binder : Option β
deriving DecidableEq

namespace dispatcher_handle_t

/-- Source: `empty() const noexcept { return !m_binder; }` -/
def empty {β : Type} (h : dispatcher_handle_t β) : Bool :=
  h.m_binder.isNone

/-- Source: `binder() const noexcept { return m_binder; }` -/
def binder {β : Type} (h : dispatcher_handle_t β) : Option β :=
  h.m_binder

/-- Source: `operator bool() const noexcept { return empty(); }` -/
def toBool {β : Type} (h : dispatcher_handle_t β) : Bool :=
  h.empty

/-- Source: `operator!() const noexcept { return !empty(); }` -/
def opNot {β : Type} (h : dispatcher_handle_t β) : Bool :=
  ! h.empty

/-- Source: `dispatcher_handle_t() noexcept = default;` — the member
`disp_binder_shptr_t m_binder` default-constructs to the null pointer. -/
def default_construct (β : Type) : dispatcher_handle_t β :=
  { m_binder := none }

end dispatcher_handle_t

/-! ## active_obj make_dispatcher overloads (src/dev/so_5/disp/active_obj/pub.hpp) -/

/-- The class `disp_params_t` owns a single data member
`queue_traits::queue_params_t m_queue_params`; the queue-parameter type is
kept abstract. -/
structure disp_params_t (QP : Type) where
  m_queue_params : QP

/-- Construction `disp_params_t{}` value-initializes `m_queue_params`; the
default-constructed queue parameters value is passed in as `dfltQP`
because `queue_params_t` lives outside the snapshot. -/
def disp_params_default (QP : Type) (dfltQP : QP) : disp_params_t QP :=
  { m_queue_params := dfltQP }

/-- Two-argument overload:
`make_dispatcher(env, nm) { return make_dispatcher(env, nm, disp_params_t{}); }`.
The three-argument overload `make3` is a library function whose body is not
in the snapshot, so it is passed in abstractly. -/
def make_dispatcher_two (Env QP H : Type) (dfltQP : QP)
    (make3 : Env → String → disp_params_t QP → H)
    (env : Env) (data_sources_name_base : String) : H :=
  make3 env data_sources_name_base (disp_params_default QP dfltQP)

/-- One-argument overload:
`make_dispatcher(env) { return make_dispatcher(env, std::string_view{}); }`;
a default-constructed `std::string_view` is the empty string. -/
def make_dispatcher_one (Env QP H : Type) (dfltQP : QP)
    (make3 : Env → String → disp_params_t QP → H)
    (env : Env) : H :=
  make_dispatcher_two Env QP H dfltQP make3 env ""

/-! ## Exception reaction resolution (src/dev/so_5/rt/h/agent_coop.hpp lines 509-522) -/

/-- The `exception_reaction_t` enumeration from so_5. -/
inductive exception_reaction_t where
  | abort_on_exception
  | shutdown_sobjectizer_on_exception
  | deregister_coop_on_exception
  | ignore_exception
  | inherit_exception_reaction
deriving DecidableEq

/-- The SObjectizer Environment, restricted to the field relevant here:
its own exception-reaction flag. -/
structure environment_t where
  m_exception_reaction : exception_reaction_t
deriving DecidableEq

/-- A cooperation restricted to the two fields `exception_reaction()` reads:
its own `m_exception_reaction` flag and its `m_parent_coop_ptr` (a root
cooperation has a null parent pointer). -/
inductive coop_chain_t where
  | root (m_exception_reaction : exception_reaction_t)
  | child (m_exception_reaction : exception_reaction_t) (parent : coop_chain_t)
deriving DecidableEq

namespace coop_chain_t

/-- The cooperation's own `m_exception_reaction` flag. -/
def m_exception_reaction : coop_chain_t → exception_reaction_t
  | .root e => e
  | .child e _ => e

/-- The cooperation's `m_parent_coop_ptr`, `none` for the null pointer. -/
def m_parent_coop_ptr : coop_chain_t → Option coop_chain_t
  | .root _ => none
  | .child _ p => some p

/-- Modelled from the spec: the body of `agent_coop_t::exception_reaction()`
is not in the snapshot; its documented logic (header lines 512-519) is: if
own's exception_reaction flag differs from inherit_exception_reaction then
own's flag is returned; otherwise if there is a parent cooperation then
parent coop's exception_reaction value is returned; otherwise SO
Environment's exception_reaction is returned. -/
def exception_reaction : coop_chain_t → environment_t → exception_reaction_t
  | .root e, env =>
      if e ≠ .inherit_exception_reaction then e
      else env.m_exception_reaction
  | .child e p, env =>
      if e ≠ .inherit_exception_reaction then e
      else p.exception_reaction env

end coop_chain_t

/-! ## Notificator containers (src/dev/so_5/rt/h/agent_coop.hpp lines 139-232) -/

/-- A single notificator invocation is embedded by its outcome: `Except.ok`
for a normal return, `Except.error` for a raised exception (the payload is
the exception text). -/
def notificator_outcome_t : Type := Except String Unit

/-- Sequencing of a list of notificator invocations. Each notificator is
invoked in order; `suppress = true` wraps every invocation in a catch-all
handler so a raised exception is swallowed and the loop continues, while
`suppress = false` lets the first exception propagate. The `ok` payload
counts how many notificators were actually invoked. -/
def run_notificators (suppress : Bool) :
    List notificator_outcome_t → Except String Nat
  | [] => .ok 0
  | n :: rest =>
      match n with
      | .ok _ => (run_notificators suppress rest).map (· + 1)
      | .error e =>
          if suppress then (run_notificators suppress rest).map (· + 1)
          else .error e

/-- Modelled from the spec: the body of
`coop_reg_notificators_container_t::call_all` is not in the snapshot; per
the header doc ("All exceptions are suppressed") and spec step 6
("exceptions from notifiers are swallowed") it invokes every added
notificator with suppression of every exception. -/
def coop_reg_notificators_container_call_all
    (m_notificators : List notificator_outcome_t) : Except String Nat :=
  run_notificators true m_notificators

/-- Modelled from the spec: the body of
`coop_dereg_notificators_container_t::call_all` is not in the snapshot;
same structure as the registration container's `call_all` (the containers
differ only in the notificator argument types, which the outcome embedding
abstracts away). -/
def coop_dereg_notificators_container_call_all
    (m_notificators : List notificator_outcome_t) : Except String Nat :=
  run_notificators true m_notificators

/-! ## Hello-loopback sample (src/dev/sample/so_5/hello_evt_lambda/main.cpp) -/

namespace Hello

/-- The `msg_hello` message: a greeting string. -/
structure msg_hello where
  m_message : String
deriving DecidableEq

/-- The message built in `a_hello_t::so_evt_start`:
`msg->m_message = "Hello, world! This is SObjectizer v.5.";`. -/
def so_evt_start_message : msg_hello :=
  { m_message := "Hello, world! This is SObjectizer v.5." }

/-- Observable state of the hello run: the lines written to stdout, and
whether `env.stop()` has been called. -/
structure HelloState where
  output : List String
  stop_called : Bool
deriving DecidableEq

/-- The lambda subscribed in `so_define_agent`:
`std::cout << msg.m_message << std::endl; so_environment().stop();`. -/
def hello_handler (msg : msg_hello) (s : HelloState) : HelloState :=
  { output := s.output ++ [msg.m_message], stop_called := true }

/-- The hello run: `so_evt_start` delivers `so_evt_start_message` to the
agent's direct mbox, whose single subscriber is `hello_handler`. -/
def hello_run : HelloState :=
  hello_handler so_evt_start_message { output := [], stop_called := false }

/-- The function `main` returns 1 when `so_5::launch` throws and 0 otherwise; the hello
run raises no exception. -/
def hello_exit_code : Nat :=
  0

end Hello

/-! ## Ping-pong sample (src/dev/sample/so_5/ping_pong_minimal/main.cpp) -/

namespace PingPong

/-- Observable state of the ping-pong run: the pinger's `m_pings_left`
counter (a C++ int, embedded as `Int`), the number of `msg_ping` signals
the ponger's subscriber has observed, the number of `msg_pong` signals the
pinger's subscriber has observed, and whether `env.stop()` was called. -/
structure PingPongState where
  m_pings_left : Int
  pings_observed : Nat
  pongs_observed : Nat
  stop_called : Bool
deriving DecidableEq

/-- Source: `a_pinger_t::send_ping`:
`m_mbox->deliver_signal< msg_ping >(); --m_pings_left;`. The delivered
ping becomes the in-flight ping handled by `run_ping_in_flight`. -/
def send_ping (s : PingPongState) : PingPongState :=
  { s with m_pings_left := s.m_pings_left - 1 }

/-- The message loop with exactly one `msg_ping` in flight. The ponger's
subscriber handles it (one `msg_ping` observed) and replies
`mbox->deliver_signal< msg_pong >()`; the pinger's `evt_pong` handles the
reply (one `msg_pong` observed) and, per the source, sends another ping
when `m_pings_left > 0`, else calls `so_environment().stop()`. -/
def run_ping_in_flight (s : PingPongState) : PingPongState :=
  if s.m_pings_left > 0 then
    run_ping_in_flight (send_ping
      { s with
          pings_observed := s.pings_observed + 1
          pongs_observed := s.pongs_observed + 1 })
  else
    { s with
        pings_observed := s.pings_observed + 1
        pongs_observed := s.pongs_observed + 1
        stop_called := true }
termination_by s.m_pings_left.toNat
decreasing_by simp [send_ping]; omega

/-- Initial pinger state: `main` constructs `a_pinger_t(env, mbox, 100000)`
so `m_pings_left = 100000`; nothing observed yet. -/
def initial_state : PingPongState :=
  { m_pings_left := 100000
    pings_observed := 0
    pongs_observed := 0
    stop_called := false }

/-- The whole run: `a_pinger_t::so_evt_start` calls `send_ping`, putting
the first ping in flight, and the loop runs until `stop()`. -/
def ping_pong_final : PingPongState :=
  run_ping_in_flight (send_ping initial_state)

end PingPong

/-! ## All-or-nothing cooperation registration
(src/dev/so_5/rt/h/agent_coop.hpp lines 244-261, 783-802) -/

namespace Registration

/-- An agent as seen by the registration protocol: whether its `so_define`
call succeeds and whether its `binder.bind(agent, coop)` call succeeds. -/
structure reg_agent_t where
  define_ok : Bool
  bind_ok : Bool
deriving DecidableEq

/-- An observable action taken by the registration routine on the agent
with the given position in `m_agent_array`. -/
inductive reg_event_t where
  | so_define (i : Nat)
  | so_undefine (i : Nat)
  | bind (i : Nat)
  | unbind (i : Nat)
deriving DecidableEq

/-- Modelled from the spec: the body of `define_all_agents` is not in the
snapshot; per spec step 2 and the class doc (header lines 249-255) it calls
`so_define` on each agent in insertion order and, on a failure, calls
`so_undefine` in reverse order on every previously defined agent and fails.
`i` is the index of the next agent; `defined_so_far` holds the indices of
the already-defined agents, most recent first. The result is the success
flag and the list of observable actions. -/
def define_all_agents_from :
    List reg_agent_t → Nat → List Nat → Bool × List reg_event_t
  | [], _, _ => (true, [])
  | a :: rest, i, defined_so_far =>
      if a.define_ok then
        let r := define_all_agents_from rest (i + 1) (i :: defined_so_far)
        (r.1, reg_event_t.so_define i :: r.2)
      else
        (false, defined_so_far.map reg_event_t.so_undefine)

/-- The define phase over the whole agent array. -/
def define_all_agents (agents : List reg_agent_t) : Bool × List reg_event_t :=
  define_all_agents_from agents 0 []

/-- Modelled from the spec: the body of `bind_agents_to_disp` is not in the
snapshot; per spec step 3 it calls `binder.bind` on each agent in insertion
order and, on a failure, calls `unbind` on every previously bound agent in
reverse order (`unbind_agents_from_disp` over the already-processed prefix,
header lines 795-802) and fails. -/
def bind_agents_to_disp_from :
    List reg_agent_t → Nat → List Nat → Bool × List reg_event_t
  | [], _, _ => (true, [])
  | a :: rest, i, bound_so_far =>
      if a.bind_ok then
        let r := bind_agents_to_disp_from rest (i + 1) (i :: bound_so_far)
        (r.1, reg_event_t.bind i :: r.2)
      else
        (false, bound_so_far.map reg_event_t.unbind)

/-- The bind phase over the whole agent array. -/
def bind_agents_to_disp (agents : List reg_agent_t) : Bool × List reg_event_t :=
  bind_agents_to_disp_from agents 0 []

/-- Modelled from the spec: the agent phases of
`do_registration_specific_actions` — define all agents (failing there fails
the registration); then bind all agents (failing there additionally
undefines all agents in reverse order, opposite to the registration steps,
then fails the registration). -/
def do_registration_specific_actions
    (agents : List reg_agent_t) : Bool × List reg_event_t :=
  let d := define_all_agents agents
  if d.1 then
    let b := bind_agents_to_disp agents
    if b.1 then (true, d.2 ++ b.2)
    else
      (false, d.2 ++ b.2
        ++ (List.range agents.length).reverse.map reg_event_t.so_undefine)
  else
    (false, d.2)

/-- The observable side effects left behind by a sequence of registration
actions: which agents are currently defined and which are currently bound
(each list holds indices, most recent first). -/
structure side_effects_t where
  defined : List Nat
  bound : List Nat
deriving DecidableEq

/-- How one registration action changes the observable side effects. -/
def apply_event (s : side_effects_t) : reg_event_t → side_effects_t
  | .so_define i => { s with defined := i :: s.defined }
  | .so_undefine i => { s with defined := s.defined.erase i }
  | .bind i => { s with bound := i :: s.bound }
  | .unbind i => { s with bound := s.bound.erase i }

/-- The net observable side effect of a list of registration actions,
starting from the pristine state. -/
def net_effect (evs : List reg_event_t) : side_effects_t :=
  evs.foldl apply_event { defined := [], bound := [] }

end Registration

/-! ## Cooperation lifecycle: status and reference count
(src/dev/so_5/rt/h/agent_coop.hpp lines 616-636, 662-671, 702-714, 814-861) -/

namespace Lifecycle

/-- The enumeration `agent_coop_t::registration_status_t` (header lines 620-636). -/
inductive registration_status_t where
  | COOP_NOT_REGISTERED
  | COOP_REGISTERED
  | COOP_DEREGISTERING
deriving DecidableEq

/-- Modelled from the spec: the lifecycle state of one cooperation. The
bodies of `do_registration_specific_actions`,
`do_deregistration_specific_actions`, `increment_usage_count`,
`decrement_usage_count` and `final_deregister_coop` are not in the
snapshot; their state is modelled from the spec invariants and the header
documentation: the registration status, the number of the cooperation's
agents still alive, the number of its direct child cooperations still
alive, whether its own registration routine is in flight,
`m_reference_count`, and how many times `final_deregister_coop` ran. -/
structure coop_state_t where
  m_registration_status : registration_status_t
  agents_alive : Nat
  children_alive : Nat
  reg_in_flight : Bool
  m_reference_count : Nat
  final_dereg_runs : Nat
deriving DecidableEq

/-- Modelled from the spec: `decrement_usage_count` (header lines 841-857)
decrements `m_reference_count`; when the count reaches zero after the
cooperation has left the REGISTERED status the final deregistration stage
`final_deregister_coop` runs. -/
def decrement_usage_count (s : coop_state_t) : coop_state_t :=
  let c := s.m_reference_count - 1
  if c = 0 ∧ s.m_registration_status = .COOP_DEREGISTERING then
    { s with
        m_reference_count := c
        final_dereg_runs := s.final_dereg_runs + 1 }
  else
    { s with m_reference_count := c }

/-- Modelled from the spec: the lifecycle events that touch one
cooperation's status and reference count.

* `do_registration k` — the registration routine of a cooperation with
  `k ≥ 1` agents (an empty cooperation is rejected with `empty_coop`):
  starting from the fresh state it increments the count once for the
  routine itself (header lines 827-836) and once per agent (header
  lines 820-823), and sets the status to REGISTERED.
* `registration_routine_finished` — the registration routine returns and
  drops its own reference.
* `child_coop_registered` — a child cooperation registers, which requires
  this cooperation to be REGISTERED, and increments the count.
* `child_coop_deregistered` — a child cooperation is fully deregistered
  and drops its reference.
* `agent_finished` — during deregistration an agent finishes its work and
  drops its reference.
* `do_deregistration` — check-and-set REGISTERED → DEREGISTERING; the
  count is untouched.
* `do_deregistration_noop` — a repeated deregistration request of an
  already-deregistering cooperation is a no-op. -/
inductive lifecycle_step : coop_state_t → coop_state_t → Prop where
  | do_registration (k : Nat) (s : coop_state_t) :
      s.m_registration_status = .COOP_NOT_REGISTERED →
      s.agents_alive = 0 →
      s.children_alive = 0 →
      s.reg_in_flight = false →
      s.m_reference_count = 0 →
      1 ≤ k →
      lifecycle_step s
        { s with
            m_registration_status := .COOP_REGISTERED
            agents_alive := k
            reg_in_flight := true
            m_reference_count := k + 1 }
  | registration_routine_finished (s : coop_state_t) :
      s.reg_in_flight = true →
      lifecycle_step s (decrement_usage_count { s with reg_in_flight := false })
  | child_coop_registered (s : coop_state_t) :
      s.m_registration_status = .COOP_REGISTERED →
      lifecycle_step s
        { s with
            children_alive := s.children_alive + 1
            m_reference_count := s.m_reference_count + 1 }
  | child_coop_deregistered (s : coop_state_t) :
      1 ≤ s.children_alive →
      lifecycle_step s
        (decrement_usage_count { s with children_alive := s.children_alive - 1 })
  | agent_finished (s : coop_state_t) :
      s.m_registration_status = .COOP_DEREGISTERING →
      1 ≤ s.agents_alive →
      lifecycle_step s
        (decrement_usage_count { s with agents_alive := s.agents_alive - 1 })
  | do_deregistration (s : coop_state_t) :
      s.m_registration_status = .COOP_REGISTERED →
      lifecycle_step s
        { s with m_registration_status := .COOP_DEREGISTERING }
  | do_deregistration_noop (s : coop_state_t) :
      s.m_registration_status = .COOP_DEREGISTERING →
      lifecycle_step s s

/-- The fresh cooperation: NOT_REGISTERED status (header lines 706-707),
no live agents, no children, no registration routine, zero count. -/
def initial_coop_state : coop_state_t :=
  { m_registration_status := .COOP_NOT_REGISTERED
    agents_alive := 0
    children_alive := 0
    reg_in_flight := false
    m_reference_count := 0
    final_dereg_runs := 0 }

/-- Reachability of `t` from `s` through lifecycle steps. -/
inductive reachable_from : coop_state_t → coop_state_t → Prop where
  | refl (s : coop_state_t) : reachable_from s s
  | tail (s t u : coop_state_t) :
      reachable_from s t → lifecycle_step t u → reachable_from s u

/-- A state of the cooperation lifecycle reachable from the fresh state. -/
def Reachable (s : coop_state_t) : Prop :=
  reachable_from initial_coop_state s

/-- The inductive invariant of the lifecycle: the reference-count
equation, the shape of the fresh status, liveness of agents while
REGISTERED, and the exact firing discipline of final_deregister_coop. -/
def coop_invariant (s : coop_state_t) : Prop :=
  s.m_reference_count =
      s.agents_alive + s.children_alive + (if s.reg_in_flight then 1 else 0)
  ∧ (s.m_registration_status = .COOP_NOT_REGISTERED →
      s.agents_alive = 0 ∧ s.children_alive = 0 ∧ s.reg_in_flight = false)
  ∧ (s.m_registration_status = .COOP_REGISTERED → 1 ≤ s.agents_alive)
  ∧ s.final_dereg_runs =
      (if s.m_registration_status = .COOP_DEREGISTERING
          ∧ s.m_reference_count = 0 then 1 else 0)

/-- The state right after the registration routine of a two-agent
cooperation has set the REGISTERED status but before it has returned. -/
def coop_after_reg : coop_state_t :=
  { m_registration_status := .COOP_REGISTERED
    agents_alive := 2
    children_alive := 0
    reg_in_flight := true
    m_reference_count := 3
    final_dereg_runs := 0 }

/-- The state `coop_after_reg` right after a deregistration request flipped its
status to DEREGISTERING. -/
def coop_deregistering : coop_state_t :=
  { coop_after_reg with m_registration_status := .COOP_DEREGISTERING }

end Lifecycle

end SO5

/-! ## Theorems for the claims -/

/-- Claim C8: the six built-in deregistration-reason codes normal, shutdown,
parent_deregistration, unhandled_exception, unknown_error and undefined are
pairwise distinct, every one of them is strictly below
user_defined_reason = 0x1000, and hence every user-defined code ≥ 0x1000
differs from every built-in reason. -/
theorem C8_dereg_reasons_distinct :
    SO5.dereg_reason.builtin_reasons.Pairwise (· ≠ ·)
    ∧ (∀ r ∈ SO5.dereg_reason.builtin_reasons,
        r < SO5.dereg_reason.user_defined_reason)
    ∧ (∀ u : Int, SO5.dereg_reason.user_defined_reason ≤ u →
        ∀ r ∈ SO5.dereg_reason.builtin_reasons, u ≠ r) := by
  refine ⟨by decide, by decide, ?_⟩
  intro u hu r hr
  have hlt : r < SO5.dereg_reason.user_defined_reason := by
    simp only [SO5.dereg_reason.builtin_reasons, List.mem_cons,
      List.not_mem_nil, or_false] at hr
    rcases hr with h | h | h | h | h | h <;> subst h <;> decide
  omega

/-- Claim C8 witness: instantiation of the quantified part at
u = 0x1000 and r = normal. -/
theorem C8_dereg_reasons_distinct_witness :
    (0x1000 : Int) ≠ SO5.dereg_reason.normal :=
  C8_dereg_reasons_distinct.2.2 0x1000 (by decide)
    SO5.dereg_reason.normal (by decide)

/-- Claim C9: for every active_obj `dispatcher_handle_t h`, `operator bool`
returns true exactly when `h` holds no binder, `operator!` returns true
exactly when `h` does hold a binder, and the default-constructed handle
converts to true under `operator bool` while its `binder()` accessor
returns the null binder pointer. -/
theorem C9_dispatcher_handle_bool (β : Type) (h : SO5.dispatcher_handle_t β) :
    (h.toBool = true ↔ h.m_binder = none)
    ∧ (h.opNot = true ↔ h.m_binder ≠ none)
    ∧ (SO5.dispatcher_handle_t.default_construct β).toBool = true
    ∧ (SO5.dispatcher_handle_t.default_construct β).binder = none := by
  refine ⟨?_, ?_, rfl, rfl⟩
  · cases hb : h.m_binder <;>
      simp [SO5.dispatcher_handle_t.toBool, SO5.dispatcher_handle_t.empty, hb]
  · cases hb : h.m_binder <;>
      simp [SO5.dispatcher_handle_t.opNot, SO5.dispatcher_handle_t.empty, hb]

/-- Claim C10: the one- and two-argument make_dispatcher overloads equal the
three-argument overload with the omitted arguments defaulted:
make_dispatcher(env, n) = make_dispatcher(env, n, disp_params_t{}) and
make_dispatcher(env) = make_dispatcher(env, std::string_view{}). -/
theorem C10_make_dispatcher_defaults (Env QP H : Type) (dfltQP : QP)
    (make3 : Env → String → SO5.disp_params_t QP → H)
    (env : Env) (n : String) :
    SO5.make_dispatcher_two Env QP H dfltQP make3 env n
      = make3 env n (SO5.disp_params_default QP dfltQP)
    ∧ SO5.make_dispatcher_one Env QP H dfltQP make3 env
      = SO5.make_dispatcher_two Env QP H dfltQP make3 env "" :=
  ⟨rfl, rfl⟩

/-- Claim C4: `agent_coop_t::exception_reaction()` resolves by a linear walk
with `inherit_exception_reaction` as sentinel: it returns the cooperation's
own flag when that flag differs from inherit; otherwise the parent
cooperation's `exception_reaction()` when a parent exists; otherwise the
environment's exception reaction. -/
theorem C4_exception_reaction_walk (env : SO5.environment_t)
    (c : SO5.coop_chain_t) :
    (c.m_exception_reaction ≠ .inherit_exception_reaction →
       c.exception_reaction env = c.m_exception_reaction)
    ∧ (c.m_exception_reaction = .inherit_exception_reaction →
        ∀ p, c.m_parent_coop_ptr = some p →
          c.exception_reaction env = p.exception_reaction env)
    ∧ (c.m_exception_reaction = .inherit_exception_reaction →
        c.m_parent_coop_ptr = none →
          c.exception_reaction env = env.m_exception_reaction) := by
  refine ⟨?_, ?_, ?_⟩
  · intro hown
    cases c with
    | root e =>
        simp only [SO5.coop_chain_t.m_exception_reaction] at hown
        simp [SO5.coop_chain_t.exception_reaction,
          SO5.coop_chain_t.m_exception_reaction, hown]
    | child e p =>
        simp only [SO5.coop_chain_t.m_exception_reaction] at hown
        simp [SO5.coop_chain_t.exception_reaction,
          SO5.coop_chain_t.m_exception_reaction, hown]
  · intro hown p hp
    cases c with
    | root e => simp [SO5.coop_chain_t.m_parent_coop_ptr] at hp
    | child e q =>
        simp only [SO5.coop_chain_t.m_exception_reaction] at hown
        simp only [SO5.coop_chain_t.m_parent_coop_ptr, Option.some.injEq] at hp
        subst hp
        simp [SO5.coop_chain_t.exception_reaction, hown]
  · intro hown hp
    cases c with
    | root e =>
        simp only [SO5.coop_chain_t.m_exception_reaction] at hown
        simp [SO5.coop_chain_t.exception_reaction, hown]
    | child e q => simp [SO5.coop_chain_t.m_parent_coop_ptr] at hp

/-- Claim C4 witness: the three branches evaluated on concrete chains — an
own flag of abort_on_exception wins over the environment; an inheriting
child defers to its parent; an inheriting root defers to the environment. -/
theorem C4_exception_reaction_walk_witness :
    (SO5.coop_chain_t.root .abort_on_exception).exception_reaction
        { m_exception_reaction := .ignore_exception }
      = .abort_on_exception
    ∧ (SO5.coop_chain_t.child .inherit_exception_reaction
          (.root .deregister_coop_on_exception)).exception_reaction
        { m_exception_reaction := .ignore_exception }
      = (SO5.coop_chain_t.root .deregister_coop_on_exception).exception_reaction
          { m_exception_reaction := .ignore_exception }
    ∧ (SO5.coop_chain_t.root .inherit_exception_reaction).exception_reaction
        { m_exception_reaction := .ignore_exception }
      = .ignore_exception := by
  refine ⟨?_, ?_, ?_⟩
  · exact (C4_exception_reaction_walk
      { m_exception_reaction := .ignore_exception }
      (SO5.coop_chain_t.root .abort_on_exception)).1 (by decide)
  · exact (C4_exception_reaction_walk
      { m_exception_reaction := .ignore_exception }
      (SO5.coop_chain_t.child .inherit_exception_reaction
        (.root .deregister_coop_on_exception))).2.1 (by decide)
      (SO5.coop_chain_t.root .deregister_coop_on_exception) rfl
  · exact (C4_exception_reaction_walk
      { m_exception_reaction := .ignore_exception }
      (SO5.coop_chain_t.root .inherit_exception_reaction)).2.2 (by decide) rfl

/-- Claim C7: `call_all` on either notificator container invokes every
added notificator and swallows every exception a notificator raises: the
result is always a normal return with all notificators invoked, never a
propagated exception. -/
theorem C7_notificator_exceptions_swallowed
    (ns : List SO5.notificator_outcome_t) :
    SO5.coop_reg_notificators_container_call_all ns = .ok ns.length
    ∧ SO5.coop_dereg_notificators_container_call_all ns = .ok ns.length := by
  have key : SO5.run_notificators true ns = .ok ns.length := by
    induction ns with
    | nil => rfl
    | cons n rest ih =>
        cases n with
        | ok u => simp [SO5.run_notificators, ih, Except.map]
        | error e => simp [SO5.run_notificators, ih, Except.map]
  exact ⟨key, key⟩

/-- Helper for the ping-pong loop: with one ping in flight and a
nonnegative pings-left counter `n`, the loop observes exactly `n + 1` more
pings and `n + 1` more pongs, drains the counter to zero and calls stop. -/
theorem run_ping_in_flight_spec (n : Nat) :
    ∀ s : SO5.PingPong.PingPongState, s.m_pings_left = (n : Int) →
      SO5.PingPong.run_ping_in_flight s =
        { m_pings_left := 0
          pings_observed := s.pings_observed + n + 1
          pongs_observed := s.pongs_observed + n + 1
          stop_called := true } := by
  induction n with
  | zero =>
      intro s hs
      unfold SO5.PingPong.run_ping_in_flight
      rw [if_neg (by omega)]
      simp [hs]
  | succ m ih =>
      intro s hs
      unfold SO5.PingPong.run_ping_in_flight
      rw [if_pos (by omega)]
      rw [ih (SO5.PingPong.send_ping
          { s with
              pings_observed := s.pings_observed + 1
              pongs_observed := s.pongs_observed + 1 })
        (by simp [SO5.PingPong.send_ping, hs])]
      simp [SO5.PingPong.send_ping,
        SO5.PingPong.PingPongState.mk.injEq]
      omega

/-- Claim C5: in the ping-pong scenario with pings_to_send = 100000, the
pinger's start emits one msg_ping and each received msg_pong triggers
another ping while the remaining-pings counter is positive, after which
env.stop() is called; in total exactly 100000 msg_ping signals are
observed by the ponger and exactly 100000 msg_pong signals by the
pinger. -/
theorem C5_ping_pong_counts :
    SO5.PingPong.ping_pong_final.pings_observed = 100000
    ∧ SO5.PingPong.ping_pong_final.pongs_observed = 100000
    ∧ SO5.PingPong.ping_pong_final.stop_called = true := by
  have h := run_ping_in_flight_spec 99999
    (SO5.PingPong.send_ping SO5.PingPong.initial_state)
    (by norm_num [SO5.PingPong.send_ping, SO5.PingPong.initial_state])
  unfold SO5.PingPong.ping_pong_final
  rw [h]
  simp [SO5.PingPong.send_ping, SO5.PingPong.initial_state]

/-- Claim C6 counterexample: the hello run's handler does not print the
line claimed by the spec — the process output is
["Hello, world! This is SObjectizer v.5."], not
["Hello, world! This is v5."]. -/
theorem C6_hello_line_counterexample :
    SO5.Hello.hello_run.output ≠ ["Hello, world! This is v5."] := by
  decide

/-- Claim C6 (amended): the single agent's start delivers msg_hello to its
own direct mailbox, the handler prints exactly the line
"Hello, world! This is SObjectizer v.5." and calls env.stop(), and the
process output is exactly that line with exit code 0. -/
theorem C6_hello_output_amended :
    SO5.Hello.hello_run.output = ["Hello, world! This is SObjectizer v.5."]
    ∧ SO5.Hello.hello_run.stop_called = true
    ∧ SO5.Hello.hello_exit_code = 0 := by
  exact ⟨rfl, rfl, rfl⟩

/-- Helper: the define phase with a clean length-j prefix fails at the j-th
agent when its so_define fails, producing the j prefix defines followed by
the matching undefines in reverse order (on top of the accumulated
defined-agent indices). -/
theorem define_all_agents_from_fail :
    ∀ (agents : List SO5.Registration.reg_agent_t) (j : Nat)
      (hj : j < agents.length),
      (agents.take j).all (·.define_ok) = true →
      ((agents.get ⟨j, hj⟩).define_ok) = false →
      ∀ (i : Nat) (acc : List Nat),
        SO5.Registration.define_all_agents_from agents i acc =
          (false,
            (List.range' i j).map SO5.Registration.reg_event_t.so_define
            ++ ((List.range' i j).reverse ++ acc).map
                SO5.Registration.reg_event_t.so_undefine) := by
  intro agents
  induction agents with
  | nil => intro j hj; simp at hj
  | cons a rest ih =>
      intro j hj hpre hfail i acc
      cases j with
      | zero =>
          have ha : a.define_ok = false := hfail
          simp [SO5.Registration.define_all_agents_from, ha]
      | succ m =>
          simp only [List.take_succ_cons, List.all_cons,
            Bool.and_eq_true] at hpre
          obtain ⟨ha, hrest⟩ := hpre
          have hm : m < rest.length := Nat.lt_of_succ_lt_succ hj
          have hfail' : (rest.get ⟨m, hm⟩).define_ok = false := hfail
          simp only [SO5.Registration.define_all_agents_from, ha, if_true]
          rw [ih m hm hrest hfail' (i + 1) (i :: acc)]
          simp [List.range'_succ, List.append_assoc]

/-- Helper: the define phase over an all-good agent list succeeds and
emits exactly one so_define per agent, in insertion order. -/
theorem define_all_agents_from_ok :
    ∀ (agents : List SO5.Registration.reg_agent_t),
      agents.all (·.define_ok) = true →
      ∀ (i : Nat) (acc : List Nat),
        SO5.Registration.define_all_agents_from agents i acc =
          (true,
            (List.range' i agents.length).map
              SO5.Registration.reg_event_t.so_define) := by
  intro agents
  induction agents with
  | nil => intro _ i acc; rfl
  | cons a rest ih =>
      intro hall i acc
      simp only [List.all_cons, Bool.and_eq_true] at hall
      obtain ⟨ha, hrest⟩ := hall
      simp only [SO5.Registration.define_all_agents_from, ha, if_true]
      rw [ih hrest (i + 1) (i :: acc)]
      simp [List.range'_succ]

/-- Helper: the bind phase with a clean length-j prefix fails at the j-th
agent when its bind fails, producing the j prefix binds followed by the
matching unbinds in reverse order. -/
theorem bind_agents_to_disp_from_fail :
    ∀ (agents : List SO5.Registration.reg_agent_t) (j : Nat)
      (hj : j < agents.length),
      (agents.take j).all (·.bind_ok) = true →
      ((agents.get ⟨j, hj⟩).bind_ok) = false →
      ∀ (i : Nat) (acc : List Nat),
        SO5.Registration.bind_agents_to_disp_from agents i acc =
          (false,
            (List.range' i j).map SO5.Registration.reg_event_t.bind
            ++ ((List.range' i j).reverse ++ acc).map
                SO5.Registration.reg_event_t.unbind) := by
  intro agents
  induction agents with
  | nil => intro j hj; simp at hj
  | cons a rest ih =>
      intro j hj hpre hfail i acc
      cases j with
      | zero =>
          have ha : a.bind_ok = false := hfail
          simp [SO5.Registration.bind_agents_to_disp_from, ha]
      | succ m =>
          simp only [List.take_succ_cons, List.all_cons,
            Bool.and_eq_true] at hpre
          obtain ⟨ha, hrest⟩ := hpre
          have hm : m < rest.length := Nat.lt_of_succ_lt_succ hj
          have hfail' : (rest.get ⟨m, hm⟩).bind_ok = false := hfail
          simp only [SO5.Registration.bind_agents_to_disp_from, ha, if_true]
          rw [ih m hm hrest hfail' (i + 1) (i :: acc)]
          simp [List.range'_succ, List.append_assoc]

/-- Helper: folding the defines of xs and then the undefines of
xs.reverse returns any starting side-effect state unchanged. -/
theorem defines_then_undefines (xs : List Nat) :
    ∀ s : SO5.Registration.side_effects_t,
      ((xs.reverse.map SO5.Registration.reg_event_t.so_undefine).foldl
          SO5.Registration.apply_event
          ((xs.map SO5.Registration.reg_event_t.so_define).foldl
            SO5.Registration.apply_event s)) = s := by
  induction xs with
  | nil => intro s; rfl
  | cons x t ih =>
      intro s
      simp only [List.map_cons, List.foldl_cons, List.reverse_cons,
        List.map_append, List.foldl_append]
      rw [ih]
      simp [SO5.Registration.apply_event]

/-- Helper: folding the binds of xs and then the unbinds of xs.reverse
returns any starting side-effect state unchanged. -/
theorem binds_then_unbinds (xs : List Nat) :
    ∀ s : SO5.Registration.side_effects_t,
      ((xs.reverse.map SO5.Registration.reg_event_t.unbind).foldl
          SO5.Registration.apply_event
          ((xs.map SO5.Registration.reg_event_t.bind).foldl
            SO5.Registration.apply_event s)) = s := by
  induction xs with
  | nil => intro s; rfl
  | cons x t ih =>
      intro s
      simp only [List.map_cons, List.foldl_cons, List.reverse_cons,
        List.map_append, List.foldl_append]
      rw [ih]
      simp [SO5.Registration.apply_event]

/-- Claim C1: cooperation registration is all-or-nothing. If the j-th
agent's so_define fails (all earlier defines succeeding), the routine
undefines the j previously defined agents in reverse order and fails; if
the j-th agent's bind fails (all defines and all earlier binds
succeeding), the routine unbinds the j previously bound agents in reverse
order, then undefines all agents in reverse order, and fails; in both
cases the net observable side effect is the pristine state. -/
theorem C1_registration_all_or_nothing
    (agents : List SO5.Registration.reg_agent_t) (j : Nat)
    (hj : j < agents.length) :
    ( (agents.take j).all (·.define_ok) = true →
      ((agents.get ⟨j, hj⟩).define_ok) = false →
      SO5.Registration.do_registration_specific_actions agents =
        (false,
          (List.range j).map SO5.Registration.reg_event_t.so_define
          ++ ((List.range j).reverse.map
              SO5.Registration.reg_event_t.so_undefine))
      ∧ SO5.Registration.net_effect
          (SO5.Registration.do_registration_specific_actions agents).2 =
        { defined := [], bound := [] } )
    ∧ ( agents.all (·.define_ok) = true →
        (agents.take j).all (·.bind_ok) = true →
        ((agents.get ⟨j, hj⟩).bind_ok) = false →
        SO5.Registration.do_registration_specific_actions agents =
          (false,
            (List.range agents.length).map
              SO5.Registration.reg_event_t.so_define
            ++ ((List.range j).map SO5.Registration.reg_event_t.bind
              ++ (List.range j).reverse.map
                  SO5.Registration.reg_event_t.unbind)
            ++ (List.range agents.length).reverse.map
                SO5.Registration.reg_event_t.so_undefine)
        ∧ SO5.Registration.net_effect
            (SO5.Registration.do_registration_specific_actions agents).2 =
          { defined := [], bound := [] } ) := by
  constructor
  · intro hpre hfail
    have hd := define_all_agents_from_fail agents j hj hpre hfail 0 []
    have htrace :
        SO5.Registration.do_registration_specific_actions agents =
          (false,
            (List.range j).map SO5.Registration.reg_event_t.so_define
            ++ ((List.range j).reverse.map
                SO5.Registration.reg_event_t.so_undefine)) := by
      unfold SO5.Registration.do_registration_specific_actions
        SO5.Registration.define_all_agents
      rw [hd]
      simp [List.range_eq_range']
    refine ⟨htrace, ?_⟩
    rw [htrace]
    unfold SO5.Registration.net_effect
    rw [List.foldl_append]
    exact defines_then_undefines (List.range j) _
  · intro hall hpre hfail
    have hd := define_all_agents_from_ok agents hall 0 []
    have hb := bind_agents_to_disp_from_fail agents j hj hpre hfail 0 []
    have htrace :
        SO5.Registration.do_registration_specific_actions agents =
          (false,
            (List.range agents.length).map
              SO5.Registration.reg_event_t.so_define
            ++ ((List.range j).map SO5.Registration.reg_event_t.bind
              ++ (List.range j).reverse.map
                  SO5.Registration.reg_event_t.unbind)
            ++ (List.range agents.length).reverse.map
                SO5.Registration.reg_event_t.so_undefine) := by
      unfold SO5.Registration.do_registration_specific_actions
        SO5.Registration.define_all_agents
        SO5.Registration.bind_agents_to_disp
      rw [hd, hb]
      simp [List.range_eq_range', List.append_assoc]
    refine ⟨htrace, ?_⟩
    rw [htrace]
    unfold SO5.Registration.net_effect
    rw [List.foldl_append, List.foldl_append, List.foldl_append]
    rw [binds_then_unbinds (List.range j) _]
    exact defines_then_undefines (List.range agents.length) _

/-- Claim C1 witness: the theorem evaluated on two concrete two-agent
cooperations — one whose second agent fails so_define, one whose second
agent fails bind. -/
theorem C1_registration_all_or_nothing_witness :
    ( SO5.Registration.do_registration_specific_actions
        [{ define_ok := true, bind_ok := true },
         { define_ok := false, bind_ok := true }] =
        (false,
          (List.range 1).map SO5.Registration.reg_event_t.so_define
          ++ ((List.range 1).reverse.map
              SO5.Registration.reg_event_t.so_undefine))
      ∧ SO5.Registration.net_effect
          (SO5.Registration.do_registration_specific_actions
            [{ define_ok := true, bind_ok := true },
             { define_ok := false, bind_ok := true }]).2 =
        { defined := [], bound := [] } )
    ∧ ( SO5.Registration.do_registration_specific_actions
          [{ define_ok := true, bind_ok := true },
           { define_ok := true, bind_ok := false }] =
          (false,
            (List.range 2).map SO5.Registration.reg_event_t.so_define
            ++ ((List.range 1).map SO5.Registration.reg_event_t.bind
              ++ (List.range 1).reverse.map
                  SO5.Registration.reg_event_t.unbind)
            ++ (List.range 2).reverse.map
                SO5.Registration.reg_event_t.so_undefine)
        ∧ SO5.Registration.net_effect
            (SO5.Registration.do_registration_specific_actions
              [{ define_ok := true, bind_ok := true },
               { define_ok := true, bind_ok := false }]).2 =
          { defined := [], bound := [] } ) := by
  constructor
  · exact (C1_registration_all_or_nothing
      [{ define_ok := true, bind_ok := true },
       { define_ok := false, bind_ok := true }] 1 (by decide)).1
      (by decide) (by decide)
  · exact (C1_registration_all_or_nothing
      [{ define_ok := true, bind_ok := true },
       { define_ok := true, bind_ok := false }] 1 (by decide)).2
      (by decide) (by decide) (by decide)

/-- Helper: `decrement_usage_count` never changes the registration
status. -/
theorem decrement_usage_count_status (x : SO5.Lifecycle.coop_state_t) :
    (SO5.Lifecycle.decrement_usage_count x).m_registration_status =
      x.m_registration_status := by
  by_cases hx : (x.m_reference_count - 1 = 0
      ∧ x.m_registration_status =
          SO5.Lifecycle.registration_status_t.COOP_DEREGISTERING)
  · simp [SO5.Lifecycle.decrement_usage_count, hx]
  · simp [SO5.Lifecycle.decrement_usage_count, hx]

/-- Helper: every lifecycle step preserves the inductive invariant. -/
theorem coop_invariant_step (s s' : SO5.Lifecycle.coop_state_t)
    (hs : SO5.Lifecycle.coop_invariant s)
    (h : SO5.Lifecycle.lifecycle_step s s') :
    SO5.Lifecycle.coop_invariant s' := by
  obtain ⟨st, a, c, f, rc, fr⟩ := s
  obtain ⟨hcount, hnot, hreg, hfinal⟩ := hs
  cases h <;>
    cases st <;>
    simp_all [SO5.Lifecycle.coop_invariant,
      SO5.Lifecycle.decrement_usage_count] <;>
    split_ifs at * <;>
    simp_all <;>
    omega

/-- Helper: the inductive invariant holds in every reachable state. -/
theorem coop_invariant_reachable (s : SO5.Lifecycle.coop_state_t)
    (h : SO5.Lifecycle.Reachable s) :
    SO5.Lifecycle.coop_invariant s := by
  have h' : SO5.Lifecycle.reachable_from
      SO5.Lifecycle.initial_coop_state s := h
  clear h
  induction h' with
  | refl => exact ⟨rfl, fun _ => ⟨rfl, rfl, rfl⟩, by decide, rfl⟩
  | tail t u ht hstep ih => exact coop_invariant_step t u ih hstep

/-- Claim C2: at every reachable state of a cooperation's lifecycle, its
reference count equals the number of its agents still alive, plus the
number of its direct child cooperations still alive, plus one while its
own registration routine is in flight; and final_deregister_coop runs at
most once, having run exactly when the count has reached zero after the
cooperation has left the REGISTERED status. -/
theorem C2_reference_count_invariant (s : SO5.Lifecycle.coop_state_t)
    (h : SO5.Lifecycle.Reachable s) :
    s.m_reference_count =
      s.agents_alive + s.children_alive
        + (if s.reg_in_flight then 1 else 0)
    ∧ s.final_dereg_runs ≤ 1
    ∧ (s.final_dereg_runs = 1 ↔
        (s.m_registration_status = .COOP_DEREGISTERING
          ∧ s.m_reference_count = 0)) := by
  obtain ⟨h1, _, _, h4⟩ := coop_invariant_reachable s h
  refine ⟨h1, ?_, ?_⟩
  · rw [h4]; split_ifs <;> omega
  · rw [h4]; split_ifs with hc
    · simp [hc]
    · simp [hc]

/-- Claim C2 witness: the invariant read off at the concrete reachable
state of a freshly registered two-agent cooperation. -/
theorem C2_reference_count_invariant_witness :
    SO5.Lifecycle.coop_after_reg.m_reference_count =
      SO5.Lifecycle.coop_after_reg.agents_alive
        + SO5.Lifecycle.coop_after_reg.children_alive
        + (if SO5.Lifecycle.coop_after_reg.reg_in_flight then 1 else 0)
    ∧ SO5.Lifecycle.coop_after_reg.final_dereg_runs ≤ 1
    ∧ (SO5.Lifecycle.coop_after_reg.final_dereg_runs = 1 ↔
        (SO5.Lifecycle.coop_after_reg.m_registration_status =
            .COOP_DEREGISTERING
          ∧ SO5.Lifecycle.coop_after_reg.m_reference_count = 0)) :=
  C2_reference_count_invariant SO5.Lifecycle.coop_after_reg
    (SO5.Lifecycle.reachable_from.tail _ _ _
      (SO5.Lifecycle.reachable_from.refl _)
      (SO5.Lifecycle.lifecycle_step.do_registration 2
        SO5.Lifecycle.initial_coop_state rfl rfl rfl rfl rfl (by omega)))

/-- Helper: a single lifecycle step either keeps the registration status,
advances NOT_REGISTERED to REGISTERED, or advances REGISTERED to
DEREGISTERING. -/
theorem lifecycle_step_status (s s' : SO5.Lifecycle.coop_state_t)
    (h : SO5.Lifecycle.lifecycle_step s s') :
    s'.m_registration_status = s.m_registration_status
    ∨ (s.m_registration_status = .COOP_NOT_REGISTERED
        ∧ s'.m_registration_status = .COOP_REGISTERED)
    ∨ (s.m_registration_status = .COOP_REGISTERED
        ∧ s'.m_registration_status = .COOP_DEREGISTERING) := by
  cases h with
  | do_registration k s hst _ _ _ _ _ => exact Or.inr (Or.inl ⟨hst, rfl⟩)
  | registration_routine_finished s _ =>
      exact Or.inl (decrement_usage_count_status _)
  | child_coop_registered s _ => exact Or.inl rfl
  | child_coop_deregistered s _ =>
      exact Or.inl (decrement_usage_count_status _)
  | agent_finished s _ _ => exact Or.inl (decrement_usage_count_status _)
  | do_deregistration s hst => exact Or.inr (Or.inr ⟨hst, rfl⟩)
  | do_deregistration_noop s _ => exact Or.inl rfl

/-- Claim C3: the registration status only ever advances along
NOT_REGISTERED → REGISTERED → DEREGISTERING: every single lifecycle step
keeps the status or advances it by exactly one stage (never backwards,
never skipping), and every reachable DEREGISTERING state passed through a
REGISTERED state. -/
theorem C3_status_monotone (s s' : SO5.Lifecycle.coop_state_t)
    (hstep : SO5.Lifecycle.lifecycle_step s s') :
    ( s'.m_registration_status = s.m_registration_status
      ∨ (s.m_registration_status = .COOP_NOT_REGISTERED
          ∧ s'.m_registration_status = .COOP_REGISTERED)
      ∨ (s.m_registration_status = .COOP_REGISTERED
          ∧ s'.m_registration_status = .COOP_DEREGISTERING) )
    ∧ (∀ t, SO5.Lifecycle.Reachable t →
        t.m_registration_status = .COOP_DEREGISTERING →
        ∃ u, SO5.Lifecycle.Reachable u
          ∧ u.m_registration_status = .COOP_REGISTERED
          ∧ SO5.Lifecycle.reachable_from u t) := by
  refine ⟨lifecycle_step_status s s' hstep, ?_⟩
  intro t ht
  have h' : SO5.Lifecycle.reachable_from
      SO5.Lifecycle.initial_coop_state t := ht
  clear ht
  induction h' with
  | refl => intro hts; exact absurd hts (by decide)
  | tail a b hab hstep2 ih =>
      intro hts
      rcases lifecycle_step_status a b hstep2 with
        heq | ⟨h1, h2⟩ | ⟨h1, h2⟩
      · obtain ⟨u, hu, hur, hub⟩ := ih (heq ▸ hts)
        exact ⟨u, hu, hur,
          SO5.Lifecycle.reachable_from.tail _ _ _ hub hstep2⟩
      · rw [h2] at hts; exact absurd hts (by decide)
      · exact ⟨a, hab, h1,
          SO5.Lifecycle.reachable_from.tail _ _ _
            (SO5.Lifecycle.reachable_from.refl a) hstep2⟩

/-- Claim C3 witness: the theorem evaluated on the concrete deregistration
step of a freshly registered two-agent cooperation. -/
theorem C3_status_monotone_witness :
    ( SO5.Lifecycle.coop_deregistering.m_registration_status =
        SO5.Lifecycle.coop_after_reg.m_registration_status
      ∨ (SO5.Lifecycle.coop_after_reg.m_registration_status =
            .COOP_NOT_REGISTERED
          ∧ SO5.Lifecycle.coop_deregistering.m_registration_status =
            .COOP_REGISTERED)
      ∨ (SO5.Lifecycle.coop_after_reg.m_registration_status =
            .COOP_REGISTERED
          ∧ SO5.Lifecycle.coop_deregistering.m_registration_status =
            .COOP_DEREGISTERING) )
    ∧ (∃ u, SO5.Lifecycle.Reachable u
        ∧ u.m_registration_status = .COOP_REGISTERED
        ∧ SO5.Lifecycle.reachable_from u SO5.Lifecycle.coop_deregistering) := by
  have hreach : SO5.Lifecycle.Reachable SO5.Lifecycle.coop_after_reg :=
    SO5.Lifecycle.reachable_from.tail _ _ _
      (SO5.Lifecycle.reachable_from.refl _)
      (SO5.Lifecycle.lifecycle_step.do_registration 2
        SO5.Lifecycle.initial_coop_state rfl rfl rfl rfl rfl (by omega))
  have hstep : SO5.Lifecycle.lifecycle_step
      SO5.Lifecycle.coop_after_reg SO5.Lifecycle.coop_deregistering :=
    SO5.Lifecycle.lifecycle_step.do_deregistration
      SO5.Lifecycle.coop_after_reg rfl
  refine ⟨(C3_status_monotone SO5.Lifecycle.coop_after_reg
      SO5.Lifecycle.coop_deregistering hstep).1, ?_⟩
  exact (C3_status_monotone SO5.Lifecycle.coop_after_reg
      SO5.Lifecycle.coop_deregistering hstep).2
    SO5.Lifecycle.coop_deregistering
    (SO5.Lifecycle.reachable_from.tail _ _ _ hreach hstep) rfl

/-- Claim C7 witness: `call_all` evaluated on a concrete two-notificator
container whose second notificator throws — both are invoked and the
result is a normal return. -/
theorem C7_notificator_exceptions_swallowed_witness :
    SO5.coop_reg_notificators_container_call_all
        [Except.ok (), Except.error "boom"] = .ok 2
    ∧ SO5.coop_dereg_notificators_container_call_all
        [Except.ok (), Except.error "boom"] = .ok 2 :=
  C7_notificator_exceptions_swallowed [Except.ok (), Except.error "boom"]

/-- Claim C9 witness: the handle properties evaluated at the
default-constructed handle over a concrete binder type. -/
theorem C9_dispatcher_handle_bool_witness :
    ((SO5.dispatcher_handle_t.default_construct Nat).toBool = true ↔
      (SO5.dispatcher_handle_t.default_construct Nat).m_binder = none)
    ∧ ((SO5.dispatcher_handle_t.default_construct Nat).opNot = true ↔
      (SO5.dispatcher_handle_t.default_construct Nat).m_binder ≠ none)
    ∧ (SO5.dispatcher_handle_t.default_construct Nat).toBool = true
    ∧ (SO5.dispatcher_handle_t.default_construct Nat).binder = none :=
  C9_dispatcher_handle_bool Nat (SO5.dispatcher_handle_t.default_construct Nat)

/-- Claim C10 witness: the default-argument equations evaluated at
concrete types and a concrete three-argument dispatcher factory. -/
theorem C10_make_dispatcher_defaults_witness :
    SO5.make_dispatcher_two Unit Nat Nat 0
        (fun _ _ p => p.m_queue_params) () "db_handler"
      = (fun _ _ p => p.m_queue_params) () "db_handler"
          (SO5.disp_params_default Nat 0)
    ∧ SO5.make_dispatcher_one Unit Nat Nat 0
        (fun _ _ p => p.m_queue_params) ()
      = SO5.make_dispatcher_two Unit Nat Nat 0
          (fun _ _ p => p.m_queue_params) () "" :=
  C10_make_dispatcher_defaults Unit Nat Nat 0
    (fun _ _ p => p.m_queue_params) () "db_handler"
